import Mathlib

/-!
Verification of the food-court-manager front-end (TypeScript sources):
the zod `LoginBody` schema (src/types/auth.schema.ts), the generic fetch
wrapper `apiRequest` / `api` / `createApiClient` (src/utils/api.ts), and
the `LoginForm` component with its `onSubmit` handler.

The TypeScript code is shallowly embedded: JavaScript values become the
inductive `JsValue`, the single `fetch` call and the fallible body readers
(`response.json()`, `response.text()`) become an explicit `FetchOutcome`
environment, and the side effects of the form component become an explicit
event trace.
-/

set_option autoImplicit false
set_option linter.unnecessarySeqFocus false

namespace FoodCourt

/-- A JavaScript runtime value, as far as the embedded code observes it.
`undef` is JavaScript `undefined` (e.g. a missing object field). -/
inductive JsValue where
  | str (s : String)
  | num (n : Int)
  | boolean (b : Bool)
  | null
  | undef
  | arr (elems : List JsValue)
  | obj (fields : List (String × JsValue))
deriving Repr

/-- A thrown JavaScript exception, as observed by the embedded code: the
only things the `catch` branches inspect are whether the thrown value is an
`Error` instance and, if so, its `message`. -/
structure JsError where
  isErrorInstance : Bool
  message : String
deriving Repr, DecidableEq

/-- JavaScript truthiness of a value (`if (v)`). -/
def truthy : JsValue → Bool
  | JsValue.str s => s ≠ ""
  | JsValue.num n => n ≠ 0
  | JsValue.boolean b => b
  | JsValue.null => false
  | JsValue.undef => false
  | JsValue.arr _ => true
  | JsValue.obj _ => true

/-- Truthiness of an optional value, where `none` embeds an absent /
`undefined` field (`if (response.data)`). -/
def truthyOpt : Option JsValue → Bool
  | none => false
  | some v => truthy v

/-- Field access on a JavaScript object embedded as an association list:
a missing key reads as `undefined`. -/
def jsField (o : List (String × JsValue)) (k : String) : JsValue :=
  (o.lookup k).getD JsValue.undef

/-- Lower-case hex digit. -/
def hexDigitChar (n : Nat) : Char :=
  if n < 10 then Char.ofNat (48 + n) else Char.ofNat (87 + n)

/-- Two lower-case hex digits of a byte. -/
def hexByte (n : Nat) : String :=
  String.singleton (hexDigitChar (n / 16)) ++ String.singleton (hexDigitChar (n % 16))

/-- `JSON.stringify` escaping of one character inside a string literal. -/
def escapeChar (c : Char) : String :=
  if c = '"' then "\\\""
  else if c = '\\' then "\\\\"
  else if c = '\n' then "\\n"
  else if c = '\t' then "\\t"
  else if c = '\r' then "\\r"
  else if c = Char.ofNat 8 then "\\b"
  else if c = Char.ofNat 12 then "\\f"
  else if c.toNat < 32 then "\\u00" ++ hexByte c.toNat
  else String.singleton c

/-- `JSON.stringify` escaping of a string body. -/
def escapeString (s : String) : String :=
  String.join (s.toList.map escapeChar)

/-- True when the value is `undefined` (object fields holding `undefined`
are omitted by `JSON.stringify`). -/
def JsValue.isUndef : JsValue → Bool
  | JsValue.undef => true
  | _ => false

mutual

/-- `JSON.stringify` of a value (`undefined` inside an array serializes as
`null`, matching the JavaScript behaviour for array elements). -/
def JsValue.stringify : JsValue → String
  | JsValue.str s => "\"" ++ escapeString s ++ "\""
  | JsValue.num n => toString n
  | JsValue.boolean b => cond b "true" "false"
  | JsValue.null => "null"
  | JsValue.undef => "null"
  | JsValue.arr xs => "[" ++ stringifyElems xs ++ "]"
  | JsValue.obj fs => "\x7b" ++ stringifyFields fs ++ "\x7d"

/-- Comma-separated serialization of array elements. -/
def stringifyElems : List JsValue → String
  | [] => ""
  | [v] => JsValue.stringify v
  | v :: rest => JsValue.stringify v ++ "," ++ stringifyElems rest

/-- Comma-separated serialization of object fields; fields holding
`undefined` are omitted, as `JSON.stringify` does. -/
def stringifyFields : List (String × JsValue) → String
  | [] => ""
  | (k, v) :: rest =>
    if v.isUndef then stringifyFields rest
    else
      let entry := "\"" ++ escapeString k ++ "\":" ++ JsValue.stringify v
      let tail := stringifyFields rest
      if tail = "" then entry else entry ++ "," ++ tail

end

mutual

/-- JavaScript `String(v)` coercion, used where a value flows into a string
position (the `message` of an `Error` built from a non-string). Arrays
coerce by comma-joining their elements, as `Array.prototype.toString`
does. -/
def jsToString : JsValue → String
  | JsValue.str s => s
  | JsValue.num n => toString n
  | JsValue.boolean b => cond b "true" "false"
  | JsValue.null => "null"
  | JsValue.undef => "undefined"
  | JsValue.arr xs => joinElems xs
  | JsValue.obj _ => "[object Object]"

/-- `Array.prototype.join(',')` under `String(...)` coercion: `null` and
`undefined` elements join as the empty string. -/
def joinElems : List JsValue → String
  | [] => ""
  | [JsValue.null] => ""
  | [JsValue.undef] => ""
  | [v] => jsToString v
  | JsValue.null :: rest => "," ++ joinElems rest
  | JsValue.undef :: rest => "," ++ joinElems rest
  | v :: rest => jsToString v ++ "," ++ joinElems rest

end

/-! ## The fetch wrapper (src/utils/api.ts) -/

/-- `RequestOptions` from src/utils/api.ts. `method = none` embeds an absent
`method` (defaulted to GET by destructuring); `headers` embeds the caller's
plain-object headers as an association list (default empty object). -/
structure RequestOptions where
  method : Option String := none
  headers : List (String × String) := []
  body : Option JsValue := none
  cache : Option String := none
  credentials : Option String := none
deriving Repr

/-- The single HTTP request handed to `fetch`: URL, method, headers object,
optional serialized body, and the pass-through rest options. -/
structure SentRequest where
  url : String
  method : String
  headers : List (String × String)
  body : Option String := none
  cache : Option String := none
  credentials : Option String := none
deriving Repr, DecidableEq

/-- JavaScript object spread `\x7b ...base, ...extra \x7d` on string-valued
records: keys of `base` keep their position with the value overridden by
`extra` when present; keys only in `extra` follow. -/
def objSpread (base extra : List (String × String)) : List (String × String) :=
  base.map (fun kv => ((kv.1, (extra.lookup kv.1).getD kv.2) : String × String)) ++
    extra.filter (fun kv => (base.lookup kv.1).isNone)

/-- The headers object built by `apiRequest`:
`\x7b 'Content-Type': 'application/json', ...headers \x7d`. -/
def requestHeaders (callerHeaders : List (String × String)) : List (String × String) :=
  objSpread [("Content-Type", "application/json")] callerHeaders

/-- The `RequestInit` that `apiRequest` passes to `fetch`: URL is
`API_BASE_URL + endpoint` (the base URL is kept as a parameter because it
comes from the environment), method defaults to GET, headers are the default
JSON header spread with the caller's, and a body is attached — serialized
with `JSON.stringify` — exactly when the caller supplied one. -/
def buildRequest (baseUrl endpoint : String) (options : RequestOptions) : SentRequest :=
  { url := baseUrl ++ endpoint
    method := options.method.getD "GET"
    headers := requestHeaders options.headers
    body := options.body.map JsValue.stringify
    cache := options.cache
    credentials := options.credentials }

/-- What the network did for the one `fetch` call: the response status, the
`content-type` header (`none` when absent), and the outcomes of the two
fallible body readers `response.json()` and `response.text()`. -/
structure FetchResponse where
  status : Nat
  contentType : Option String
  jsonResult : Except JsError JsValue
  textResult : Except JsError String

/-- Outcome of the `await fetch(...)` call itself: a response, or a thrown
exception (network failure etc.). -/
inductive FetchOutcome where
  | response (r : FetchResponse)
  | throws (e : JsError)

/-- `response.ok`: status in the range 200–299. -/
def respOk (status : Nat) : Bool :=
  decide (200 ≤ status ∧ status ≤ 299)

/-- Substring test on character lists (`String.prototype.includes`). -/
def charsInclude (pat : List Char) : List Char → Bool
  | [] => pat.isEmpty
  | c :: rest => pat.isPrefixOf (c :: rest) || charsInclude pat rest

/-- `contentType && contentType.includes('application/json')`. -/
def includesJson : Option String → Bool
  | none => false
  | some ct => charsInclude "application/json".toList ct.toList

/-- Property access `responseData.message`: throws a `TypeError` on `null`
or `undefined` receivers, reads the field (or `undefined`) on objects, and
yields `undefined` on other primitives. The `TypeError` message is a fixed
model string; only its `Error`-instance status is observable downstream. -/
def dotMessage : JsValue → Except JsError JsValue
  | JsValue.null => Except.error ⟨true, "Cannot read properties of null"⟩
  | JsValue.undef => Except.error ⟨true, "Cannot read properties of undefined"⟩
  | JsValue.obj fs => Except.ok (jsField fs "message")
  | _ => Except.ok JsValue.undef

/-- `responseData.message || 'An error occurred'`: the raw `message` value
when it is truthy (the code stores it untouched, even when it is not a
string), the default string otherwise. -/
def messageOrDefault (m : JsValue) : JsValue :=
  if truthy m then m else JsValue.str "An error occurred"

/-- `ApiResponse<T>` from src/utils/api.ts: `none` embeds an absent
optional field. `error` is declared `string` in TypeScript, but at runtime
it holds whatever value the error branch produced, so it is embedded as a
`JsValue`. -/
structure ApiResponse where
  data : Option JsValue := none
  error : Option JsValue := none
  statusCode : Nat
deriving Repr

/-- The body of the `try` block of `apiRequest` after the `fetch` resolved:
branch on JSON content type and `response.ok`, propagating any exception
thrown by `response.json()`, by the `.message` access, or by
`response.text()`. -/
def handleResponse (r : FetchResponse) : Except JsError ApiResponse :=
  if includesJson r.contentType then
    match r.jsonResult with
    | Except.error e => Except.error e
    | Except.ok responseData =>
      if respOk r.status then
        Except.ok { data := some responseData, statusCode := r.status }
      else
        match dotMessage responseData with
        | Except.error e => Except.error e
        | Except.ok m =>
          Except.ok { error := some (messageOrDefault m), statusCode := r.status }
  else
    if respOk r.status then
      match r.textResult with
      | Except.error e => Except.error e
      | Except.ok textData =>
        Except.ok { data := some (JsValue.str textData), statusCode := r.status }
    else
      Except.ok { error := some (JsValue.str ("Request failed with status " ++ toString r.status))
                  statusCode := r.status }

/-- The `catch` branch of `apiRequest`:
`\x7b error: error instanceof Error ? error.message : 'Network error', statusCode: 500 \x7d`. -/
def catchShape (e : JsError) : ApiResponse :=
  { error := some (JsValue.str (cond e.isErrorInstance e.message "Network error"))
    statusCode := 500 }

/-- The whole `try`/`catch` of `apiRequest` after the request was built, as
a function of the fetch outcome. -/
def apiRequestResult (outcome : FetchOutcome) : ApiResponse :=
  match outcome with
  | FetchOutcome.throws e => catchShape e
  | FetchOutcome.response r =>
    match handleResponse r with
    | Except.ok res => res
    | Except.error e => catchShape e

/-- The exception caught by `apiRequest`'s `catch`, when one is thrown. -/
def caughtException (outcome : FetchOutcome) : Option JsError :=
  match outcome with
  | FetchOutcome.throws e => some e
  | FetchOutcome.response r =>
    match handleResponse r with
    | Except.ok _ => none
    | Except.error e => some e

/-- Observable network action of `apiRequest`. -/
inductive ApiEvent where
  | fetchCall (req : SentRequest)
deriving Repr, DecidableEq

/-- One complete run of `apiRequest`: the straight-line code performs
exactly the one `fetch` with the built request, then shapes the outcome
into an `ApiResponse`. -/
def apiRequestRun (baseUrl endpoint : String) (options : RequestOptions)
    (outcome : FetchOutcome) : List ApiEvent × ApiResponse :=
  ([ApiEvent.fetchCall (buildRequest baseUrl endpoint options)], apiRequestResult outcome)

/-- `api.get`: `apiRequest(endpoint, \x7b ...options, method: 'GET' \x7d)`. -/
def apiGet (baseUrl endpoint : String) (options : RequestOptions)
    (outcome : FetchOutcome) : List ApiEvent × ApiResponse :=
  apiRequestRun baseUrl endpoint { options with method := some "GET" } outcome

/-- `api.post`: `apiRequest(endpoint, \x7b ...options, method: 'POST', body: data \x7d)`. -/
def apiPost (baseUrl endpoint : String) (data : Option JsValue) (options : RequestOptions)
    (outcome : FetchOutcome) : List ApiEvent × ApiResponse :=
  apiRequestRun baseUrl endpoint { options with method := some "POST", body := data } outcome

/-- `api.put`. -/
def apiPut (baseUrl endpoint : String) (data : Option JsValue) (options : RequestOptions)
    (outcome : FetchOutcome) : List ApiEvent × ApiResponse :=
  apiRequestRun baseUrl endpoint { options with method := some "PUT", body := data } outcome

/-- `api.delete`. -/
def apiDelete (baseUrl endpoint : String) (options : RequestOptions)
    (outcome : FetchOutcome) : List ApiEvent × ApiResponse :=
  apiRequestRun baseUrl endpoint { options with method := some "DELETE" } outcome

/-! ## The LoginBody zod schema (src/types/auth.schema.ts) -/

/-- The parsed value of the `LoginBody` schema (`LoginBodyType`). -/
structure LoginBodyType where
  email : String
  password : String
deriving Repr, DecidableEq

/-- `z.string()`: accepts exactly string values. -/
def zString : JsValue → Option String
  | JsValue.str s => some s
  | _ => none

/-- `.min(n)` on a string schema. -/
def zMin (n : Nat) (s : String) : Option String :=
  if n ≤ s.length then some s else none

/-- `.max(n)` on a string schema. -/
def zMax (n : Nat) (s : String) : Option String :=
  if s.length ≤ n then some s else none

/-- `.email()` on a string schema. Zod's email acceptance lives in the zod
library, outside this repository, so it is kept as the parameter `check`. -/
def zEmail (check : String → Bool) (s : String) : Option String :=
  if check s then some s else none

/-- The `email: z.string().email()` field validator. -/
def emailFieldParse (check : String → Bool) (v : JsValue) : Option String :=
  (zString v).bind (zEmail check)

/-- The `password: z.string().min(6).max(100)` field validator. -/
def passwordFieldParse (v : JsValue) : Option String :=
  ((zString v).bind (zMin 6)).bind (zMax 100)

/-- `.strict()`: no keys besides the declared `email` and `password`. -/
def strictLoginKeys (o : List (String × JsValue)) : Bool :=
  o.all (fun kv => kv.1 == "email" || kv.1 == "password")

/-- `LoginBody.parse` on a submitted object: both declared fields must
validate and, by `.strict()`, no unknown key may be present. -/
def loginBodyParse (check : String → Bool) (o : List (String × JsValue)) :
    Option LoginBodyType :=
  if strictLoginKeys o then
    match emailFieldParse check (jsField o "email"),
        passwordFieldParse (jsField o "password") with
    | some e, some p => some ⟨e, p⟩
    | _, _ => none
  else none

/-- Spec-side restatement of the C1 validity condition, written from the
spec's words ("valid email shape, password length at least 6 and at most
100, no fields other than email and password") to be compared with
`loginBodyParse`, which is written from the source. -/
def specLoginValid (check : String → Bool) (o : List (String × JsValue)) : Bool :=
  (match jsField o "email" with
   | JsValue.str e => check e
   | _ => false) &&
  (match jsField o "password" with
   | JsValue.str p => decide (6 ≤ p.length) && decide (p.length ≤ 100)
   | _ => false) &&
  o.all (fun kv => kv.1 == "email" || kv.1 == "password")

/-! ## The login form (LoginForm component) -/

/-- Observable actions of the form component during one submission:
state-setter calls, the network request issued through `api.post`, the
`console.error` log, and the router navigation. -/
inductive FormEvent where
  | setLoading (b : Bool)
  | setErr (e : Option String)
  | request (r : SentRequest)
  | logError (e : Option JsValue)
  | push (route : String)
deriving Repr

/-- The JavaScript object the form passes to `api.post` as the body: the
validated `values`. -/
def loginValuesJs (v : LoginBodyType) : JsValue :=
  JsValue.obj [("email", JsValue.str v.email), ("password", JsValue.str v.password)]

/-- The message of the `Error` thrown in the else-branch
(`new Error(response.error || 'Login failed')`), which the `catch` then
stores with `setError(err.message)` since it is an `Error` instance.
`response.error || 'Login failed'` keeps the raw error value when it is
truthy; the `Error` constructor then coerces it with `String(...)`. -/
def formErrMsg (respError : Option JsValue) : String :=
  match respError with
  | some m => if truthy m then jsToString m else "Login failed"
  | none => "Login failed"

/-- The `onSubmit` handler of the form as an event trace: set loading, clear
the error, await `api.post('/api/auth/login', values)`, then either navigate
on truthy `response.data` or log and set the error message; the `finally`
clears the loading flag on every path. -/
def onSubmit (baseUrl : String) (v : LoginBodyType) (outcome : FetchOutcome) :
    List FormEvent :=
  let run := apiPost baseUrl "/api/auth/login" (some (loginValuesJs v)) {} outcome
  let req := (buildRequest baseUrl "/api/auth/login"
    { method := some "POST", body := some (loginValuesJs v) })
  let response := run.2
  [FormEvent.setLoading true, FormEvent.setErr none, FormEvent.request req] ++
    (if truthyOpt response.data then
      [FormEvent.push "/home"]
    else
      [FormEvent.logError response.error,
       FormEvent.setErr (some (formErrMsg response.error))]) ++
    [FormEvent.setLoading false]

/-- `form.handleSubmit(onSubmit)` with the `zodResolver(LoginBody)`:
`onSubmit` runs only when the raw submission passes `LoginBody.parse`;
otherwise no state change and no request happen. -/
def handleSubmit (check : String → Bool) (baseUrl : String)
    (o : List (String × JsValue)) (outcome : FetchOutcome) : List FormEvent :=
  match loginBodyParse check o with
  | some v => onSubmit baseUrl v outcome
  | none => []

/-- The component state touched by `onSubmit`. -/
structure FormState where
  isLoading : Bool := false
  error : Option String := none
deriving Repr, DecidableEq

/-- Effect of one event on the component state. -/
def applyEvent (st : FormState) : FormEvent → FormState
  | FormEvent.setLoading b => { st with isLoading := b }
  | FormEvent.setErr e => { st with error := e }
  | _ => st

/-- State after a trace of events. -/
def applyTrace (st : FormState) (events : List FormEvent) : FormState :=
  events.foldl applyEvent st

/-- The error box `\x7berror && <div>...\x7berror\x7d...</div>\x7d` renders
exactly when the error state is truthy (non-null and non-empty). -/
def errorBoxVisible (st : FormState) : Bool :=
  match st.error with
  | some s => s ≠ ""
  | none => false

/-! ## createApiClient (src/utils/api.ts) -/

/-- Observable side action of the generated client. -/
inductive ClientEvent where
  | logValidationError (e : JsError)
deriving Repr, DecidableEq

/-- `createApiClient(endpoint, schema).getAll`: performs `api.get`, and when
`response.data` is truthy runs `schema.parse` inside a `try` whose `catch`
only logs; the response is returned unchanged either way. The zod schema is
generic, so its `parse` is the parameter `schemaParse`. -/
def clientGetAll (schemaParse : JsValue → Except JsError JsValue)
    (baseUrl endpoint : String) (options : RequestOptions)
    (outcome : FetchOutcome) : ApiResponse × List ClientEvent :=
  let response := (apiGet baseUrl endpoint options outcome).2
  match response.data with
  | some d =>
    if truthy d then
      match schemaParse d with
      | Except.ok _ => (response, [])
      | Except.error e => (response, [ClientEvent.logValidationError e])
    else (response, [])
  | none => (response, [])

/-- `createApiClient(endpoint, schema).getById`: a plain `api.get` on
`endpoint + '/' + id`; `schemaParse` is never consulted. -/
def clientGetById (schemaParse : JsValue → Except JsError JsValue)
    (baseUrl endpoint id : String) (options : RequestOptions)
    (outcome : FetchOutcome) : ApiResponse :=
  let _ := schemaParse
  (apiGet baseUrl (endpoint ++ "/" ++ id) options outcome).2

/-- `createApiClient(endpoint, schema).create`: a plain `api.post`. -/
def clientCreate (schemaParse : JsValue → Except JsError JsValue)
    (baseUrl endpoint : String) (data : Option JsValue) (options : RequestOptions)
    (outcome : FetchOutcome) : ApiResponse :=
  let _ := schemaParse
  (apiPost baseUrl endpoint data options outcome).2

/-- `createApiClient(endpoint, schema).update`: a plain `api.put` on
`endpoint + '/' + id`. -/
def clientUpdate (schemaParse : JsValue → Except JsError JsValue)
    (baseUrl endpoint id : String) (data : Option JsValue) (options : RequestOptions)
    (outcome : FetchOutcome) : ApiResponse :=
  let _ := schemaParse
  (apiPut baseUrl (endpoint ++ "/" ++ id) data options outcome).2

/-- `createApiClient(endpoint, schema).remove`: a plain `api.delete` on
`endpoint + '/' + id`. -/
def clientRemove (schemaParse : JsValue → Except JsError JsValue)
    (baseUrl endpoint id : String) (options : RequestOptions)
    (outcome : FetchOutcome) : ApiResponse :=
  let _ := schemaParse
  (apiDelete baseUrl (endpoint ++ "/" ++ id) options outcome).2

/-! ## Theorems -/

/-- The outer structure of `loginBodyParse`: it succeeds exactly when both
field validators succeed and the strict key check passes. -/
theorem loginBodyParse_isSome (check : String → Bool) (o : List (String × JsValue)) :
    (loginBodyParse check o).isSome =
      ((emailFieldParse check (jsField o "email")).isSome &&
        ((passwordFieldParse (jsField o "password")).isSome && strictLoginKeys o)) := by
  unfold loginBodyParse
  cases hst : strictLoginKeys o <;>
    cases he : emailFieldParse check (jsField o "email") <;>
    cases hp : passwordFieldParse (jsField o "password") <;>
    simp [hst, he, hp]

/-- C1: `LoginBody` validation succeeds exactly when the email field is a
string accepted by the email check, the password is a string of length
between 6 and 100, and no fields besides `email` and `password` are
present; and when validation fails, the form's submit pipeline produces no
event at all — in particular no request. -/
theorem loginBody_validation_iff (check : String → Bool) (baseUrl : String)
    (o : List (String × JsValue)) (outcome : FetchOutcome) :
    ((loginBodyParse check o).isSome = true ↔ specLoginValid check o = true) ∧
    (loginBodyParse check o = none → handleSubmit check baseUrl o outcome = []) := by
  constructor
  · rw [loginBodyParse_isSome]
    unfold specLoginValid emailFieldParse passwordFieldParse
      zString zEmail zMin zMax strictLoginKeys
    cases hem : jsField o "email" <;> cases hpw : jsField o "password" <;>
      simp [Option.bind] <;> split_ifs <;> simp_all <;> tauto
  · intro h
    unfold handleSubmit
    rw [h]

/-- Witness for C1: a well-formed submission parses; an invalid one (short
password) produces no form event. -/
theorem loginBody_validation_iff_witness :
    (loginBodyParse (fun s => s.toList.contains '@')
        [("email", JsValue.str "a@b.c"), ("password", JsValue.str "secret1")]).isSome = true ∧
    handleSubmit (fun s => s.toList.contains '@') "http://localhost:8000/api"
        [("email", JsValue.str "a@b.c"), ("password", JsValue.str "short")]
        (FetchOutcome.throws ⟨true, "boom"⟩) = [] := by
  constructor
  · exact (loginBody_validation_iff (fun s => s.toList.contains '@') "http://localhost:8000/api"
      [("email", JsValue.str "a@b.c"), ("password", JsValue.str "secret1")]
      (FetchOutcome.throws ⟨true, "boom"⟩)).1.mpr (by decide)
  · exact (loginBody_validation_iff (fun s => s.toList.contains '@') "http://localhost:8000/api"
      [("email", JsValue.str "a@b.c"), ("password", JsValue.str "short")]
      (FetchOutcome.throws ⟨true, "boom"⟩)).2 (by decide)

/-- The fetch resolved to a response whose HTTP status is a success
status. -/
def respondedOk : FetchOutcome → Bool
  | FetchOutcome.throws _ => false
  | FetchOutcome.response r => respOk r.status

/-- Shape of the non-throwing result of the response-handling block:
`data` is present exactly on `response.ok`, `error` exactly otherwise. -/
theorem handleResponse_ok_shape (r : FetchResponse) (res : ApiResponse)
    (h : handleResponse r = Except.ok res) :
    res.data.isSome = respOk r.status ∧ res.error.isSome = !respOk r.status ∧
    res.statusCode = r.status := by
  unfold handleResponse at h
  repeat' split at h
  all_goals first
    | exact (Except.noConfusion h)
    | (injection h with h2; subst h2; simp_all)

/-- C2: for every fetch outcome, `apiRequest` returns a plain value (its
result is a total function of the outcome — nothing escapes the
`try`/`catch`), the result never carries both `data` and `error`, `data` is
present exactly when no exception was caught and the response status was a
success status, and `error` is present exactly otherwise. -/
theorem apiRequest_uniform_shape (outcome : FetchOutcome) :
    (¬((apiRequestResult outcome).data.isSome = true ∧
        (apiRequestResult outcome).error.isSome = true)) ∧
    ((apiRequestResult outcome).data.isSome = true ↔
      (caughtException outcome = none ∧ respondedOk outcome = true)) ∧
    ((apiRequestResult outcome).error.isSome = true ↔
      ¬(caughtException outcome = none ∧ respondedOk outcome = true)) := by
  cases outcome with
  | throws e => simp [apiRequestResult, caughtException, catchShape, respondedOk]
  | response r =>
    cases hr : handleResponse r with
    | error e =>
      simp [apiRequestResult, caughtException, hr, catchShape, respondedOk]
    | ok res =>
      obtain ⟨hd, he, _⟩ := handleResponse_ok_shape r res hr
      simp only [apiRequestResult, caughtException, hr, respondedOk]
      cases hok : respOk r.status <;> simp_all

/-- Witness for C2, at a successful JSON response and at a network
failure. -/
theorem apiRequest_uniform_shape_witness :
    ((¬((apiRequestResult (FetchOutcome.response
          ⟨200, some "application/json", Except.ok (JsValue.str "x"), Except.ok "x"⟩)).data.isSome = true ∧
        (apiRequestResult (FetchOutcome.response
          ⟨200, some "application/json", Except.ok (JsValue.str "x"), Except.ok "x"⟩)).error.isSome = true)) ∧
      ((apiRequestResult (FetchOutcome.response
          ⟨200, some "application/json", Except.ok (JsValue.str "x"), Except.ok "x"⟩)).data.isSome = true ↔
        (caughtException (FetchOutcome.response
          ⟨200, some "application/json", Except.ok (JsValue.str "x"), Except.ok "x"⟩) = none ∧
          respondedOk (FetchOutcome.response
          ⟨200, some "application/json", Except.ok (JsValue.str "x"), Except.ok "x"⟩) = true)) ∧
      ((apiRequestResult (FetchOutcome.response
          ⟨200, some "application/json", Except.ok (JsValue.str "x"), Except.ok "x"⟩)).error.isSome = true ↔
        ¬(caughtException (FetchOutcome.response
          ⟨200, some "application/json", Except.ok (JsValue.str "x"), Except.ok "x"⟩) = none ∧
          respondedOk (FetchOutcome.response
          ⟨200, some "application/json", Except.ok (JsValue.str "x"), Except.ok "x"⟩) = true))) :=
  apiRequest_uniform_shape (FetchOutcome.response
    ⟨200, some "application/json", Except.ok (JsValue.str "x"), Except.ok "x"⟩)

/-- Counterexample to C3: the error field does not collapse to one generic
message regardless of the caught exception — two caught `Error` instances
with different messages yield different error strings, and neither is the
generic `'Network error'`. -/
theorem caught_error_depends_on_exception :
    (apiRequestResult (FetchOutcome.throws ⟨true, "boom"⟩)).error
      = some (JsValue.str "boom") ∧
    (apiRequestResult (FetchOutcome.throws ⟨true, "crash"⟩)).error
      = some (JsValue.str "crash") ∧
    ("boom" : String) ≠ "crash" ∧ ("boom" : String) ≠ "Network error" := by
  refine ⟨rfl, rfl, by decide, by decide⟩

/-- C3 (amended): for every exception caught inside `apiRequest`, the error
field is the exception's own `message` when the exception is an `Error`
instance, and the generic `'Network error'` otherwise; `data` is absent and
the status code is 500 either way. -/
theorem apiRequest_caught_error_message (outcome : FetchOutcome) (e : JsError)
    (h : caughtException outcome = some e) :
    (apiRequestResult outcome).error =
      some (JsValue.str (cond e.isErrorInstance e.message "Network error")) ∧
    (apiRequestResult outcome).data = none ∧
    (apiRequestResult outcome).statusCode = 500 := by
  cases outcome with
  | throws e2 =>
    injection h with h2
    subst h2
    exact ⟨rfl, rfl, rfl⟩
  | response r =>
    simp only [caughtException] at h
    cases hr : handleResponse r with
    | ok res => rw [hr] at h; simp at h
    | error e2 =>
      rw [hr] at h
      simp at h
      subst h
      simp [apiRequestResult, hr, catchShape]

/-- Witness for the amended C3: a caught non-`Error` throw collapses to
`'Network error'` with status 500. -/
theorem apiRequest_caught_error_message_witness :
    (apiRequestResult (FetchOutcome.throws ⟨false, "weird"⟩)).error
      = some (JsValue.str "Network error") ∧
    (apiRequestResult (FetchOutcome.throws ⟨false, "weird"⟩)).data = none ∧
    (apiRequestResult (FetchOutcome.throws ⟨false, "weird"⟩)).statusCode = 500 :=
  apiRequest_caught_error_message (FetchOutcome.throws ⟨false, "weird"⟩) ⟨false, "weird"⟩ rfl

/-- C10: whenever `apiRequest` catches an exception, the returned status
code is exactly 500 — whatever the actual HTTP status of the response
was. -/
theorem apiRequest_catch_statusCode (outcome : FetchOutcome) (e : JsError)
    (h : caughtException outcome = some e) :
    (apiRequestResult outcome).statusCode = 500 := by
  cases outcome with
  | throws e2 => rfl
  | response r =>
    simp only [caughtException] at h
    cases hr : handleResponse r with
    | ok res => rw [hr] at h; simp at h
    | error e2 => simp [apiRequestResult, hr, catchShape]

/-- Witness for C10: a JSON parse failure on a response whose HTTP status
was 200 (a success status) still comes back with status code 500. -/
theorem apiRequest_catch_statusCode_witness :
    caughtException (FetchOutcome.response
        ⟨200, some "application/json", Except.error ⟨true, "Unexpected token"⟩, Except.ok ""⟩)
      = some ⟨true, "Unexpected token"⟩ ∧
    respOk 200 = true ∧
    (apiRequestResult (FetchOutcome.response
        ⟨200, some "application/json", Except.error ⟨true, "Unexpected token"⟩, Except.ok ""⟩)).statusCode
      = 500 := by
  refine ⟨by decide, by decide, ?_⟩
  exact apiRequest_catch_statusCode (FetchOutcome.response
    ⟨200, some "application/json", Except.error ⟨true, "Unexpected token"⟩, Except.ok ""⟩)
    ⟨true, "Unexpected token"⟩ (by decide)

/-- Counterexample to C5: a caller-supplied `Content-Type` header is spread
after the default, so the issued request carries the caller's value, not
`application/json`. -/
theorem contentType_override_counterexample :
    ((buildRequest "http://localhost:8000/api" "/x"
        { headers := [("Content-Type", "text/plain")] }).headers.lookup "Content-Type"
      = some "text/plain") ∧
    (some ("text/plain" : String) ≠ some ("application/json" : String)) := by
  refine ⟨rfl, by decide⟩

/-- C5 (amended): every request issued by `apiRequest` carries
`Content-Type: application/json` whenever the caller's headers do not set
`Content-Type` themselves; a caller-supplied `Content-Type` overrides the
default and is carried instead. -/
theorem requestHeaders_contentType (baseUrl endpoint : String) (options : RequestOptions) :
    (options.headers.lookup "Content-Type" = none →
      (buildRequest baseUrl endpoint options).headers.lookup "Content-Type"
        = some "application/json") ∧
    (∀ v, options.headers.lookup "Content-Type" = some v →
      (buildRequest baseUrl endpoint options).headers.lookup "Content-Type" = some v) := by
  constructor
  · intro h
    simp [buildRequest, requestHeaders, objSpread, List.lookup, h]
  · intro v h
    simp [buildRequest, requestHeaders, objSpread, List.lookup, h]

/-- Witness for the amended C5: without a caller `Content-Type` the default
is carried; with one, the caller's value is carried. -/
theorem requestHeaders_contentType_witness :
    ((buildRequest "http://localhost:8000/api" "/x"
        { headers := [("Authorization", "Bearer t")] }).headers.lookup "Content-Type"
      = some "application/json") ∧
    ((buildRequest "http://localhost:8000/api" "/x"
        { headers := [("Content-Type", "text/css")] }).headers.lookup "Content-Type"
      = some "text/css") := by
  constructor
  · exact (requestHeaders_contentType "http://localhost:8000/api" "/x"
      { headers := [("Authorization", "Bearer t")] }).1 (by decide)
  · exact (requestHeaders_contentType "http://localhost:8000/api" "/x"
      { headers := [("Content-Type", "text/css")] }).2 "text/css" (by decide)

/-- C4: on every invocation of `onSubmit`, the first two actions set the
loading flag and clear the previous error, the request follows, and the
last action — on the success path and on every failure path — sets the
loading flag back to false; nothing in between touches the loading flag or
issues another request. -/
theorem onSubmit_loading_toggles (baseUrl : String) (v : LoginBodyType)
    (outcome : FetchOutcome) :
    ∃ req mid,
      onSubmit baseUrl v outcome =
        FormEvent.setLoading true :: FormEvent.setErr none :: FormEvent.request req ::
          (mid ++ [FormEvent.setLoading false]) ∧
      (∀ e ∈ mid, (∀ b, e ≠ FormEvent.setLoading b) ∧ (∀ r, e ≠ FormEvent.request r)) := by
  cases ht : truthyOpt (apiPost baseUrl "/api/auth/login"
      (some (loginValuesJs v)) {} outcome).2.data with
  | true =>
    refine ⟨buildRequest baseUrl "/api/auth/login"
      { method := some "POST", body := some (loginValuesJs v) },
      [FormEvent.push "/home"], ?_, ?_⟩
    · simp [onSubmit, ht]
    · intro e he
      simp only [List.mem_singleton] at he
      subst he
      exact ⟨fun b => by simp, fun r => by simp⟩
  | false =>
    refine ⟨buildRequest baseUrl "/api/auth/login"
      { method := some "POST", body := some (loginValuesJs v) },
      [FormEvent.logError (apiPost baseUrl "/api/auth/login"
        (some (loginValuesJs v)) {} outcome).2.error,
      FormEvent.setErr (some (formErrMsg (apiPost baseUrl "/api/auth/login"
        (some (loginValuesJs v)) {} outcome).2.error))], ?_, ?_⟩
    · simp [onSubmit, ht]
    · intro e he
      simp only [List.mem_cons, List.mem_singleton, List.not_mem_nil, or_false] at he
      rcases he with he | he <;> subst he <;>
        exact ⟨fun b => by simp, fun r => by simp⟩

/-- Witness for C4 at concrete inputs. -/
theorem onSubmit_loading_toggles_witness :
    ∃ req mid,
      onSubmit "http://localhost:8000/api" ⟨"a@b.c", "secret1"⟩
          (FetchOutcome.throws ⟨true, "boom"⟩) =
        FormEvent.setLoading true :: FormEvent.setErr none :: FormEvent.request req ::
          (mid ++ [FormEvent.setLoading false]) ∧
      (∀ e ∈ mid, (∀ b, e ≠ FormEvent.setLoading b) ∧ (∀ r, e ≠ FormEvent.request r)) :=
  onSubmit_loading_toggles "http://localhost:8000/api" ⟨"a@b.c", "secret1"⟩
    (FetchOutcome.throws ⟨true, "boom"⟩)

/-- C6: a submission that passed validation issues a POST request to
`API_BASE_URL + '/api/auth/login'` whose body is the JSON serialization of
the validated email and password. -/
theorem login_post_request (check : String → Bool) (baseUrl : String)
    (o : List (String × JsValue)) (v : LoginBodyType) (outcome : FetchOutcome)
    (h : loginBodyParse check o = some v) :
    ∃ req, FormEvent.request req ∈ handleSubmit check baseUrl o outcome ∧
      req.method = "POST" ∧
      req.url = baseUrl ++ "/api/auth/login" ∧
      req.body = some (JsValue.stringify (JsValue.obj
        [("email", JsValue.str v.email), ("password", JsValue.str v.password)])) := by
  unfold handleSubmit
  rw [h]
  refine ⟨buildRequest baseUrl "/api/auth/login"
    { method := some "POST", body := some (loginValuesJs v) }, ?_, rfl, rfl, rfl⟩
  simp [onSubmit]

/-- Witness for C6 at a concrete validated submission. -/
theorem login_post_request_witness :
    ∃ req, FormEvent.request req ∈ handleSubmit (fun _ => true) "http://localhost:8000/api"
        [("email", JsValue.str "a@b.c"), ("password", JsValue.str "secret1")]
        (FetchOutcome.throws ⟨true, "boom"⟩) ∧
      req.method = "POST" ∧
      req.url = "http://localhost:8000/api" ++ "/api/auth/login" ∧
      req.body = some (JsValue.stringify (JsValue.obj
        [("email", JsValue.str "a@b.c"), ("password", JsValue.str "secret1")])) :=
  login_post_request (fun _ => true) "http://localhost:8000/api"
    [("email", JsValue.str "a@b.c"), ("password", JsValue.str "secret1")]
    ⟨"a@b.c", "secret1"⟩ (FetchOutcome.throws ⟨true, "boom"⟩) (by decide)

/-- Recognizer for the one network action of `apiRequest`. -/
def ApiEvent.isFetch : ApiEvent → Bool
  | ApiEvent.fetchCall _ => true

/-- Recognizer for the form's network action. -/
def FormEvent.isNetworkCall : FormEvent → Bool
  | FormEvent.request _ => true
  | _ => false

/-- C7: one run of `apiRequest` performs exactly one fetch, and one run of
the form's `onSubmit` issues exactly one request — in particular, on every
failure outcome there is no second attempt. -/
theorem apiRequest_no_retry (baseUrl endpoint : String) (options : RequestOptions)
    (outcome : FetchOutcome) (v : LoginBodyType) :
    ((apiRequestRun baseUrl endpoint options outcome).1.countP ApiEvent.isFetch = 1) ∧
    ((onSubmit baseUrl v outcome).countP FormEvent.isNetworkCall = 1) := by
  constructor
  · rfl
  · cases ht : truthyOpt (apiPost baseUrl "/api/auth/login"
        (some (loginValuesJs v)) {} outcome).2.data <;>
      simp [onSubmit, ht, List.countP_cons, List.countP_append, FormEvent.isNetworkCall]

/-- Witness for C7 at concrete inputs. -/
theorem apiRequest_no_retry_witness :
    ((apiRequestRun "http://localhost:8000/api" "/api/auth/login" {}
        (FetchOutcome.throws ⟨true, "boom"⟩)).1.countP ApiEvent.isFetch = 1) ∧
    ((onSubmit "http://localhost:8000/api" ⟨"a@b.c", "secret1"⟩
        (FetchOutcome.throws ⟨true, "boom"⟩)).countP FormEvent.isNetworkCall = 1) :=
  apiRequest_no_retry "http://localhost:8000/api" "/api/auth/login" {}
    (FetchOutcome.throws ⟨true, "boom"⟩) ⟨"a@b.c", "secret1"⟩

/-- The stored message is the `String(...)` coercion of the response's own
truthy error value, or the fallback `'Login failed'`. -/
theorem formErrMsg_source (e : Option JsValue) :
    (∃ m, e = some m ∧ truthy m = true ∧ formErrMsg e = jsToString m) ∨
      formErrMsg e = "Login failed" := by
  cases e with
  | none => exact Or.inr rfl
  | some m =>
    simp only [formErrMsg]
    split_ifs with h
    · exact Or.inl ⟨m, rfl, h, rfl⟩
    · exact Or.inr rfl

/-- Counterexample to C8: at a non-ok JSON response whose body is
`\x7b"message": []\x7d`, the truthy raw value `[]` is kept as the error,
`String([])` coerces it to the empty string inside `new Error(...)`, the
form sets its error state to `""` — not a non-empty message — and the
`error && ...` box does not render even though the state is non-null. -/
theorem login_error_rendered_counterexample :
    (apiRequestResult (FetchOutcome.response ⟨400, some "application/json",
        Except.ok (JsValue.obj [("message", JsValue.arr [])]), Except.ok ""⟩)).data
      = none ∧
    (applyTrace {} (onSubmit "http://localhost:8000/api" ⟨"a@b.c", "secret1"⟩
        (FetchOutcome.response ⟨400, some "application/json",
          Except.ok (JsValue.obj [("message", JsValue.arr [])]), Except.ok ""⟩))).error
      = some "" ∧
    errorBoxVisible (applyTrace {} (onSubmit "http://localhost:8000/api"
        ⟨"a@b.c", "secret1"⟩ (FetchOutcome.response ⟨400, some "application/json",
          Except.ok (JsValue.obj [("message", JsValue.arr [])]), Except.ok ""⟩)))
      = false := by
  refine ⟨rfl, rfl, rfl⟩

/-- C8 (amended): whenever the login response has no `data`, the form sets
its error state to a string message — the `String(...)` coercion of the
response's truthy error value, or the fallback `'Login failed'` — the state
after the whole handler still holds that message, and the error box is
rendered for that state exactly when the message is non-empty. -/
theorem login_error_rendered (baseUrl : String) (v : LoginBodyType)
    (outcome : FetchOutcome)
    (h : (apiRequestResult outcome).data = none) :
    ∃ msg, msg = formErrMsg (apiRequestResult outcome).error ∧
      FormEvent.setErr (some msg) ∈ onSubmit baseUrl v outcome ∧
      ((∃ m, (apiRequestResult outcome).error = some m ∧ truthy m = true ∧
          msg = jsToString m) ∨ msg = "Login failed") ∧
      (applyTrace {} (onSubmit baseUrl v outcome)).error = some msg ∧
      (errorBoxVisible (applyTrace {} (onSubmit baseUrl v outcome)) = true ↔ msg ≠ "") := by
  have htr : truthyOpt (apiRequestResult outcome).data = false := by
    rw [h]
    rfl
  refine ⟨formErrMsg (apiRequestResult outcome).error, rfl, ?_,
    formErrMsg_source _, ?_, ?_⟩
  · simp [onSubmit, apiPost, apiRequestRun, htr]
  · simp [onSubmit, apiPost, apiRequestRun, htr, applyTrace, applyEvent]
  · simp [errorBoxVisible, onSubmit, apiPost, apiRequestRun, htr, applyTrace, applyEvent]

/-- Witness for the amended C8: a network failure leaves no data, the
stored message is the caught exception's message, and the box renders since
it is non-empty. -/
theorem login_error_rendered_witness :
    ∃ msg, msg = formErrMsg (apiRequestResult (FetchOutcome.throws ⟨true, "boom"⟩)).error ∧
      FormEvent.setErr (some msg) ∈ onSubmit "http://localhost:8000/api"
        ⟨"a@b.c", "secret1"⟩ (FetchOutcome.throws ⟨true, "boom"⟩) ∧
      ((∃ m, (apiRequestResult (FetchOutcome.throws ⟨true, "boom"⟩)).error = some m ∧
          truthy m = true ∧ msg = jsToString m) ∨ msg = "Login failed") ∧
      (applyTrace {} (onSubmit "http://localhost:8000/api" ⟨"a@b.c", "secret1"⟩
        (FetchOutcome.throws ⟨true, "boom"⟩))).error = some msg ∧
      (errorBoxVisible (applyTrace {} (onSubmit "http://localhost:8000/api"
        ⟨"a@b.c", "secret1"⟩ (FetchOutcome.throws ⟨true, "boom"⟩))) = true ↔ msg ≠ "") :=
  login_error_rendered "http://localhost:8000/api" ⟨"a@b.c", "secret1"⟩
    (FetchOutcome.throws ⟨true, "boom"⟩) rfl

/-- C9: in the client built by `createApiClient`, schema validation never
changes a returned value: `getAll` returns the underlying `api.get`
response unchanged for every parse function (in particular for throwing
ones, where the failure is only logged), and `getById`, `create`, `update`
and `remove` do not consult the schema at all. -/
theorem client_validation_is_inert
    (p q : JsValue → Except JsError JsValue) (baseUrl endpoint itemId : String)
    (data : Option JsValue) (options : RequestOptions) (outcome : FetchOutcome) :
    ((clientGetAll p baseUrl endpoint options outcome).1
        = (apiGet baseUrl endpoint options outcome).2) ∧
    (clientGetById p baseUrl endpoint itemId options outcome
        = clientGetById q baseUrl endpoint itemId options outcome) ∧
    (clientCreate p baseUrl endpoint data options outcome
        = clientCreate q baseUrl endpoint data options outcome) ∧
    (clientUpdate p baseUrl endpoint itemId data options outcome
        = clientUpdate q baseUrl endpoint itemId data options outcome) ∧
    (clientRemove p baseUrl endpoint itemId options outcome
        = clientRemove q baseUrl endpoint itemId options outcome) ∧
    (∀ d err, (apiGet baseUrl endpoint options outcome).2.data = some d →
      truthy d = true → p d = Except.error err →
      (clientGetAll p baseUrl endpoint options outcome).2
        = [ClientEvent.logValidationError err]) := by
  refine ⟨?_, rfl, rfl, rfl, rfl, ?_⟩
  · simp only [clientGetAll]
    repeat' split
    all_goals rfl
  · intro d err hd ht hp
    simp only [clientGetAll]
    rw [hd]
    simp [ht, hp]

/-- Witness for C9: with a parse function that always throws, `getAll` on a
successful JSON response still returns the response, and only logs. -/
theorem client_validation_is_inert_witness :
    ((clientGetAll (fun _ => Except.error ⟨true, "invalid"⟩) "http://localhost:8000/api"
        "/users" {} (FetchOutcome.response
          ⟨200, some "application/json", Except.ok (JsValue.str "x"), Except.ok "x"⟩)).1
      = (apiGet "http://localhost:8000/api" "/users" {} (FetchOutcome.response
          ⟨200, some "application/json", Except.ok (JsValue.str "x"), Except.ok "x"⟩)).2) ∧
    ((clientGetAll (fun _ => Except.error ⟨true, "invalid"⟩) "http://localhost:8000/api"
        "/users" {} (FetchOutcome.response
          ⟨200, some "application/json", Except.ok (JsValue.str "x"), Except.ok "x"⟩)).2
      = [ClientEvent.logValidationError ⟨true, "invalid"⟩]) := by
  constructor
  · exact (client_validation_is_inert (fun _ => Except.error ⟨true, "invalid"⟩)
      (fun x => Except.ok x) "http://localhost:8000/api" "/users" "1" none {}
      (FetchOutcome.response
        ⟨200, some "application/json", Except.ok (JsValue.str "x"), Except.ok "x"⟩)).1
  · exact (client_validation_is_inert (fun _ => Except.error ⟨true, "invalid"⟩)
      (fun x => Except.ok x) "http://localhost:8000/api" "/users" "1" none {}
      (FetchOutcome.response
        ⟨200, some "application/json", Except.ok (JsValue.str "x"), Except.ok "x"⟩)).2.2.2.2.2
      (JsValue.str "x") ⟨true, "invalid"⟩ rfl rfl rfl

end FoodCourt
